import Mathlib

/-!
# google-cloud-vision-api-go: the command-line client of `main.go`

A shallow embedding of `main.go`.  The program is sequential glue around
library calls, so the embedding has three layers.

* `World` collects everything the program consumes from outside: the process
  environment, the file system, the credential parser, the client
  constructors, the remote annotate operation and the JSON serializer.  Each
  fallible call returns `Except String _`, the string being the text of the Go
  `error`.
* `Event` is one observable action of a run; a run yields the list of its
  events in program order, so "never reads a file" or "calls the remote
  service once" are statements about that list.
* `newVisionService`, `annotateImageRequest` and `Run` follow the three Go
  functions statement by statement.

`Run` starts after `flag.Parse()`: its inputs are the value bound to `-t` and
the positional arguments `flag.Args()`.
-/

namespace Vision

/-! ## Data model -/

/-- One element of a Go `[]byte`. -/
abbrev Byte := Fin 256

/-- The fields of `vision.Image` that the program sets. -/
structure Image where
  Content : String
  deriving DecidableEq, Repr

/-- The fields of `vision.Feature` that the program sets (`Type` is `Type_`). -/
structure Feature where
  MaxResults : Int
  Type_ : String
  deriving DecidableEq, Repr

/-- The fields of `vision.AnnotateImageRequest` that the program sets. -/
structure AnnotateImageRequest where
  Image : Image
  Features : List Feature
  deriving DecidableEq, Repr

/-- The request body `vision.BatchAnnotateImagesRequest`. -/
structure BatchAnnotateImagesRequest where
  Requests : List AnnotateImageRequest
  deriving DecidableEq, Repr

/-- The reply `vision.BatchAnnotateImagesResponse`; the per-image results are
of a type fixed by the remote service. -/
structure BatchAnnotateImagesResponse (Resp : Type) where
  Responses : List Resp

/-- Exit codes of the `const` block. -/
def SUCCESS : Int := 0

/-- Exit code of every failure. -/
def FAILURE : Int := 1

/-- The constant `vision.CloudPlatformScope`. -/
def CloudPlatformScope : String := "https://www.googleapis.com/auth/cloud-platform"

/-- The name of the environment variable read by `newVisionService`. -/
def credentialsVar : String := "GOOGLE_APPLICATION_CREDENTIALS"

/-! ## The outside world -/

/-- Everything a run consumes from outside the program. -/
structure World where
  /-- The type `*jwt.Config`. -/
  Config : Type
  /-- The type `*http.Client`. -/
  Client : Type
  /-- The type `*vision.Service`. -/
  Service : Type
  /-- The type `*vision.AnnotateImageResponse`. -/
  Response : Type
  /-- The process environment: `none` for a variable that is not set. -/
  environ : String → Option String
  /-- The outcome of `ioutil.ReadFile` at each path. -/
  files : String → Except String (List Byte)
  /-- The function `google.JWTConfigFromJSON`, applied to key bytes and a scope. -/
  JWTConfigFromJSON : List Byte → String → Except String Config
  /-- The method `config.Client(ctx)`. -/
  configClient : Config → Client
  /-- The function `vision.New`. -/
  visionNew : Client → Except String Service
  /-- The call `srv.Images.Annotate(batch).Do()`. -/
  annotateDo : Service → BatchAnnotateImagesRequest →
    Except String (BatchAnnotateImagesResponse Response)
  /-- The function `json.MarshalIndent`, applied to a result list, a prefix and
  an indent. -/
  MarshalIndent : List Response → String → String → Except String String

/-- One observable action of a run. -/
inductive Event where
  /-- A lookup `os.Getenv(name)`. -/
  | getenv (name : String)
  /-- A call `ioutil.ReadFile(path)`. -/
  | readFile (path : String)
  /-- A call `srv.Images.Annotate(batch).Do()`. -/
  | annotate (batch : BatchAnnotateImagesRequest)
  /-- A call `log.Printf`, with the formatted message. -/
  | logPrintf (msg : String)
  /-- A write to standard output, with the text written. -/
  | stdout (text : String)
  deriving DecidableEq, Repr

/-- The events of a run, in program order. -/
abbrev Trace := List Event

/-- A computation that appends events to the trace so far. -/
def Eff (α : Type) : Type := Trace → α × Trace

/-- Sequencing of `Eff`: the second computation continues the first one's trace. -/
instance : Monad Eff where
  pure a := fun tr => (a, tr)
  bind m f := fun tr => f (m tr).1 (m tr).2

/-- Record one event. -/
def emit (e : Event) : Eff Unit := fun tr => ((), tr ++ [e])

/-- Run a computation from the empty trace. -/
def Eff.run {α : Type} (m : Eff α) : α × Trace := m []

/-- The call `os.Getenv`: the value of the variable, `""` when it is not set. -/
def Getenv (w : World) (name : String) : Eff String := do
  emit (.getenv name)
  pure ((w.environ name).getD "")

/-- The call `ioutil.ReadFile`. -/
def ReadFile (w : World) (path : String) : Eff (Except String (List Byte)) := do
  emit (.readFile path)
  pure (w.files path)

/-- The call `srv.Images.Annotate(batch).Do()`. -/
def AnnotateDo (w : World) (srv : w.Service) (batch : BatchAnnotateImagesRequest) :
    Eff (Except String (BatchAnnotateImagesResponse w.Response)) := do
  emit (.annotate batch)
  pure (w.annotateDo srv batch)

/-- The call `log.Printf` with an already formatted message. -/
def logPrintf (msg : String) : Eff Unit := emit (.logPrintf msg)

/-- The call `fmt.Println(s)`: `s` and a newline on standard output. -/
def Println (s : String) : Eff Unit := emit (.stdout (s ++ "\n"))

/-! ## `base64.StdEncoding.EncodeToString` -/

/-- The alphabet `encodeStd` of `encoding/base64`. -/
def encodeStd : List Char :=
  "ABCDEFGHIJKLMNOPQRSTUVWXYZabcdefghijklmnopqrstuvwxyz0123456789+/".toList

/-- The lookup `enc.encode[i]`. -/
def encodeChar (i : Nat) : Char := encodeStd.getD i 'A'

/-- The padding character `StdPadding`. -/
def padChar : Char := '='

/-- The loop of `(*Encoding).Encode`: whole 3-byte groups give four characters
each, a remainder of one or two bytes gives two or three characters and
padding up to four. -/
def encode : List Byte → List Char
  | [] => []
  | [a] =>
    let val := a.val <<< 16
    [encodeChar (val >>> 18 &&& 0x3F), encodeChar (val >>> 12 &&& 0x3F), padChar, padChar]
  | [a, b] =>
    let val := a.val <<< 16 ||| b.val <<< 8
    [encodeChar (val >>> 18 &&& 0x3F), encodeChar (val >>> 12 &&& 0x3F),
      encodeChar (val >>> 6 &&& 0x3F), padChar]
  | a :: b :: c :: rest =>
    let val := a.val <<< 16 ||| b.val <<< 8 ||| c.val
    encodeChar (val >>> 18 &&& 0x3F) :: encodeChar (val >>> 12 &&& 0x3F) ::
      encodeChar (val >>> 6 &&& 0x3F) :: encodeChar (val &&& 0x3F) :: encode rest

/-- The method `base64.StdEncoding.EncodeToString`. -/
def EncodeToString (src : List Byte) : String := String.mk (encode src)

/-- The inverse of `encodeChar`: the position of a character in the alphabet. -/
def decodeChar (c : Char) : Option Nat :=
  let i := encodeStd.indexOf c
  if i < 64 then some i else none

/-- The padded decoding of RFC 4648, section 4, against which the encoder is
checked: four characters give three bytes, a final group ending in two or one
padding characters gives one or two bytes, anything else is rejected. -/
def decode : List Char → Option (List Byte)
  | [] => some []
  | c1 :: c2 :: c3 :: c4 :: rest =>
    match decodeChar c1, decodeChar c2 with
    | some s1, some s2 =>
      if c3 = padChar then
        if c4 = padChar ∧ rest = [] ∧ s2 % 16 = 0 then
          some [Fin.ofNat (s1 * 4 + s2 / 16)]
        else none
      else
        match decodeChar c3 with
        | none => none
        | some s3 =>
          if c4 = padChar then
            if rest = [] ∧ s3 % 4 = 0 then
              some [Fin.ofNat (s1 * 4 + s2 / 16), Fin.ofNat (s2 % 16 * 16 + s3 / 4)]
            else none
          else
            match decodeChar c4, decode rest with
            | some s4, some tail =>
              some (Fin.ofNat (s1 * 4 + s2 / 16) :: Fin.ofNat (s2 % 16 * 16 + s3 / 4) ::
                Fin.ofNat (s3 % 4 * 64 + s4) :: tail)
            | _, _ => none
    | _, _ => none
  | _ => none

/-- Decoding of a text: `decode` on its characters. -/
def DecodeString (s : String) : Option (List Byte) := decode s.data

/-! ## The program -/

/-- The function `newVisionService` of `main.go`. -/
def newVisionService (w : World) : Eff (Except String w.Service) := do
  let fn ← Getenv w credentialsVar
  if fn.length = 0 then
    pure (.error "Unable to get env variable: GOOGLE_APPLICATION_CREDENTIALS")
  else
    match ← ReadFile w fn with
    | .error err => pure (.error ("Unable to read client secret file: " ++ err))
    | .ok b =>
      match w.JWTConfigFromJSON b CloudPlatformScope with
      | .error err =>
        pure (.error ("Unable to parse client secret file to config: " ++ err))
      | .ok config =>
        let client := w.configClient config
        match w.visionNew client with
        | .error err => pure (.error ("Unable to retrieve vision Client " ++ err))
        | .ok srv => pure (.ok srv)

/-- The function `annotateImageRequest` of `main.go`. -/
def annotateImageRequest (w : World) (path : String) (featureType : String) :
    Eff (Except String AnnotateImageRequest) := do
  match ← ReadFile w path with
  | .error err => pure (.error ("Unable to read an image by file path: " ++ err))
  | .ok b =>
    pure (.ok
      { Image := { Content := EncodeToString b }
        Features := [{ MaxResults := 10, Type_ := featureType }] })

/-- The function `Run` of `main.go`, from the statement after `flag.Parse()`:
`featureType` is the value bound to `-t`, `args` is `flag.Args()`. -/
def Run (w : World) (featureType : String) (args : List String) : Eff Int := do
  if h : args.length = 0 then do
    logPrintf "Argument is required."
    pure FAILURE
  else
    match ← newVisionService w with
    | .error err =>
      logPrintf ("Unable to retrieve vision service: " ++ err ++ "\n")
      pure FAILURE
    | .ok srv =>
      match ← annotateImageRequest w (args.get ⟨args.length - 1, by omega⟩) featureType with
      | .error err =>
        logPrintf ("Unable to retrieve image request: " ++ err ++ "\n")
        pure FAILURE
      | .ok req =>
        let batch : BatchAnnotateImagesRequest := { Requests := [req] }
        match ← AnnotateDo w srv batch with
        | .error err =>
          logPrintf ("Unable to execute images annotate requests: " ++ err ++ "\n")
          pure FAILURE
        | .ok res =>
          match w.MarshalIndent res.Responses "" " " with
          | .error err =>
            logPrintf ("Unable to marshal the response: " ++ err ++ "\n")
            pure FAILURE
          | .ok body =>
            Println body
            pure SUCCESS

/-! ## Reading a trace -/

/-- The batches passed to the remote annotate operation, in order. -/
def annotateCalls (tr : Trace) : List BatchAnnotateImagesRequest :=
  tr.filterMap fun e => match e with
    | .annotate batch => some batch
    | _ => none

/-- The paths given to `ioutil.ReadFile`, in order. -/
def fileReads (tr : Trace) : List String :=
  tr.filterMap fun e => match e with
    | .readFile path => some path
    | _ => none

/-- The names given to `os.Getenv`, in order. -/
def envLookups (tr : Trace) : List String :=
  tr.filterMap fun e => match e with
    | .getenv name => some name
    | _ => none

/-- The messages given to the logger, in order. -/
def logged (tr : Trace) : List String :=
  tr.filterMap fun e => match e with
    | .logPrintf msg => some msg
    | _ => none

/-- The texts written to standard output, in order. -/
def stdoutWrites (tr : Trace) : List String :=
  tr.filterMap fun e => match e with
    | .stdout text => some text
    | _ => none

/-- Every step of `Run` succeeds: a last positional argument exists, the
service handle is built, the request is built, the remote call answers and
the answer serializes. -/
def AllStepsSucceed (w : World) (featureType : String) (args : List String) : Prop :=
  ∃ (path : String) (srv : w.Service) (req : AnnotateImageRequest)
    (res : BatchAnnotateImagesResponse w.Response) (body : String),
    args.getLast? = some path ∧
    (newVisionService w).run.1 = .ok srv ∧
    (annotateImageRequest w path featureType).run.1 = .ok req ∧
    w.annotateDo srv { Requests := [req] } = .ok res ∧
    w.MarshalIndent res.Responses "" " " = .ok body

/-- The six ways a run of `Run` can go, each with its exit code and its events:
one per `return` statement of the function. -/
inductive RunOutcome (w : World) (t : String) (args : List String) : Int × Trace → Prop
  /-- No positional argument. -/
  | noArgs : args = [] →
      RunOutcome w t args (1, [.logPrintf "Argument is required."])
  /-- The service factory fails. -/
  | serviceError (path err : String) :
      args.getLast? = some path →
      (newVisionService w).run.1 = .error err →
      RunOutcome w t args
        (1, (newVisionService w).run.2 ++
          [.logPrintf ("Unable to retrieve vision service: " ++ err ++ "\n")])
  /-- The request builder fails. -/
  | requestError (path : String) (srv : w.Service) (err : String) :
      args.getLast? = some path →
      (newVisionService w).run.1 = .ok srv →
      (annotateImageRequest w path t).run.1 = .error err →
      RunOutcome w t args
        (1, (newVisionService w).run.2 ++
          [.readFile path,
           .logPrintf ("Unable to retrieve image request: " ++ err ++ "\n")])
  /-- The remote call fails. -/
  | remoteError (path : String) (srv : w.Service) (req : AnnotateImageRequest)
      (err : String) :
      args.getLast? = some path →
      (newVisionService w).run.1 = .ok srv →
      (annotateImageRequest w path t).run.1 = .ok req →
      w.annotateDo srv { Requests := [req] } = .error err →
      RunOutcome w t args
        (1, (newVisionService w).run.2 ++
          [.readFile path, .annotate { Requests := [req] },
           .logPrintf ("Unable to execute images annotate requests: " ++ err ++ "\n")])
  /-- The serializer fails. -/
  | marshalError (path : String) (srv : w.Service) (req : AnnotateImageRequest)
      (res : BatchAnnotateImagesResponse w.Response) (err : String) :
      args.getLast? = some path →
      (newVisionService w).run.1 = .ok srv →
      (annotateImageRequest w path t).run.1 = .ok req →
      w.annotateDo srv { Requests := [req] } = .ok res →
      w.MarshalIndent res.Responses "" " " = .error err →
      RunOutcome w t args
        (1, (newVisionService w).run.2 ++
          [.readFile path, .annotate { Requests := [req] },
           .logPrintf ("Unable to marshal the response: " ++ err ++ "\n")])
  /-- Every step succeeds. -/
  | success (path : String) (srv : w.Service) (req : AnnotateImageRequest)
      (res : BatchAnnotateImagesResponse w.Response) (body : String) :
      args.getLast? = some path →
      (newVisionService w).run.1 = .ok srv →
      (annotateImageRequest w path t).run.1 = .ok req →
      w.annotateDo srv { Requests := [req] } = .ok res →
      w.MarshalIndent res.Responses "" " " = .ok body →
      RunOutcome w t args
        (0, (newVisionService w).run.2 ++
          [.readFile path, .annotate { Requests := [req] }, .stdout (body ++ "\n")])

/-! ## Concrete worlds -/

/-- A world in which every step succeeds: the credential variable names a
readable key file, `img.png` holds the two bytes `fo`, the remote service
answers one result per request and the serializer renders the results. -/
def okWorld : World where
  Config := Unit
  Client := Unit
  Service := Unit
  Response := String
  environ := fun name => if name = "GOOGLE_APPLICATION_CREDENTIALS" then some "/key.json" else none
  files := fun path =>
    if path = "/key.json" then .ok [0x7b, 0x7d]
    else if path = "img.png" then .ok [0x66, 0x6f]
    else .error ("open " ++ path ++ ": no such file or directory")
  JWTConfigFromJSON := fun _ _ => .ok ()
  configClient := fun _ => ()
  visionNew := fun _ => .ok ()
  annotateDo := fun _ batch => .ok { Responses := batch.Requests.map fun _ => "\x7b\x7d" }
  MarshalIndent := fun rs _ indent =>
    .ok ("[\n" ++ String.intercalate ",\n" (rs.map fun r => indent ++ r) ++ "\n]")

/-- The world `okWorld` with the credential variable removed from the
environment. -/
def noEnvWorld : World := { okWorld with environ := fun _ => none }

/-- The world `okWorld` with the credential variable set to the empty string. -/
def emptyEnvWorld : World :=
  { okWorld with
    environ := fun name => if name = "GOOGLE_APPLICATION_CREDENTIALS" then some "" else none }

/-- The world `okWorld` with a remote service that refuses every call. -/
def remoteDownWorld : World :=
  { okWorld with annotateDo := fun _ _ => .error "googleapi: Error 503: Service Unavailable" }

/-- The world `okWorld` with a serializer that rejects every result list. -/
def marshalFailWorld : World :=
  { okWorld with MarshalIndent := fun _ _ _ => .error "json: unsupported value: NaN" }

/-! ## The base64 encoder -/

/-- The 24-bit group of three bytes, as arithmetic. -/
theorem group_val (a b c : Nat) (hb : b < 256) (hc : c < 256) :
    a <<< 16 ||| b <<< 8 ||| c = a * 65536 + b * 256 + c := by
  have e1 : a <<< 16 = 2 ^ 16 * a := by rw [Nat.shiftLeft_eq, Nat.mul_comm]
  have e2 : b <<< 8 = b * 256 := by rw [Nat.shiftLeft_eq]
  have h1 : a <<< 16 ||| b <<< 8 = a * 65536 + b * 256 := by
    rw [e1, e2, ← Nat.mul_add_lt_is_or (by omega) a]
    omega
  have e3 : a * 65536 + b * 256 = 2 ^ 8 * (a * 256 + b) := by omega
  rw [h1, e3, ← Nat.mul_add_lt_is_or (by omega) (a * 256 + b)]

/-- A six-bit field of a group, as arithmetic. -/
theorem sextet (v k : Nat) : v >>> k &&& 0x3F = v / 2 ^ k % 64 := by
  rw [Nat.shiftRight_eq_div_pow]
  exact Nat.and_pow_two_sub_one_eq_mod _ 6

/-- The alphabet lookup is inverted by `decodeChar`. -/
theorem decodeChar_encodeChar (i : Nat) (h : i < 64) : decodeChar (encodeChar i) = some i := by
  have : ∀ j : Fin 64, decodeChar (encodeChar j.val) = some j.val := by decide
  exact this ⟨i, h⟩

/-- No alphabet character is the padding character. -/
theorem encodeChar_ne_padChar (i : Nat) (h : i < 64) : encodeChar i ≠ padChar := by
  have : ∀ j : Fin 64, encodeChar j.val ≠ padChar := by decide
  exact this ⟨i, h⟩


/-- The four six-bit fields of a group determine its three bytes. -/
theorem group_sextets (a b c : Byte) :
    ∃ s1 s2 s3 s4 : Nat,
      (a.val <<< 16 ||| b.val <<< 8 ||| c.val) >>> 18 &&& 0x3F = s1 ∧
      (a.val <<< 16 ||| b.val <<< 8 ||| c.val) >>> 12 &&& 0x3F = s2 ∧
      (a.val <<< 16 ||| b.val <<< 8 ||| c.val) >>> 6 &&& 0x3F = s3 ∧
      (a.val <<< 16 ||| b.val <<< 8 ||| c.val) &&& 0x3F = s4 ∧
      s1 < 64 ∧ s2 < 64 ∧ s3 < 64 ∧ s4 < 64 ∧
      (Fin.ofNat (s1 * 4 + s2 / 16) : Byte) = a ∧
      (Fin.ofNat (s2 % 16 * 16 + s3 / 4) : Byte) = b ∧
      (Fin.ofNat (s3 % 4 * 64 + s4) : Byte) = c ∧
      (b.val = 0 → c.val = 0 → s2 % 16 = 0) ∧ (c.val = 0 → s3 % 4 = 0) := by
  have ha := a.isLt
  have hb := b.isLt
  have hc := c.isLt
  have h0 : ∀ v, v &&& 0x3F = v >>> 0 &&& 0x3F := fun v => by simp
  refine ⟨_, _, _, _, rfl, rfl, rfl, rfl, ?_⟩
  rw [h0 (a.val <<< 16 ||| b.val <<< 8 ||| c.val)]
  simp only [sextet, group_val a.val b.val c.val hb hc]
  refine ⟨by omega, by omega, by omega, by omega, ?_, ?_, ?_, by omega, by omega⟩ <;>
  · apply Fin.ext
    simp only [Fin.ofNat, Fin.val_mk]
    omega

/-- Decoding inverts the encoder on every byte sequence. -/
theorem decode_encode (src : List Byte) : decode (encode src) = some src := by
  induction src using encode.induct with
  | case1 => rfl
  | case2 a =>
    obtain ⟨s1, s2, s3, s4, h1, h2, h3, h4, l1, l2, l3, l4, ea, eb, ec, p2, p3⟩ :=
      group_sextets a 0 0
    simp only [Fin.val_zero, Nat.zero_shiftLeft, Nat.or_zero] at h1 h2
    simp [encode, decode, h1, h2, decodeChar_encodeChar, l1, l2, p2, ea]
  | case3 a b =>
    obtain ⟨s1, s2, s3, s4, h1, h2, h3, h4, l1, l2, l3, l4, ea, eb, ec, p2, p3⟩ :=
      group_sextets a b 0
    simp only [Fin.val_zero, Nat.or_zero] at h1 h2 h3
    simp [encode, decode, h1, h2, h3, decodeChar_encodeChar, l1, l2, l3, p3, ea, eb,
      encodeChar_ne_padChar]
  | case4 a b c rest ih =>
    obtain ⟨s1, s2, s3, s4, h1, h2, h3, h4, l1, l2, l3, l4, ea, eb, ec, p2, p3⟩ :=
      group_sextets a b c
    simp [encode, decode, h1, h2, h3, h4, decodeChar_encodeChar, l1, l2, l3, l4, ea, eb, ec,
      encodeChar_ne_padChar, ih]


/-- The encoder emits four characters for every started group of three bytes. -/
theorem encode_length (src : List Byte) : (encode src).length = 4 * ((src.length + 2) / 3) := by
  induction src using encode.induct with
  | case1 => rfl
  | case2 a => simp [encode]
  | case3 a b => simp [encode]
  | case4 a b c rest ih =>
    simp only [encode, List.length_cons, ih]
    omega

/-- The text produced by `EncodeToString` decodes to the bytes it was given. -/
theorem DecodeString_EncodeToString (src : List Byte) :
    DecodeString (EncodeToString src) = some src :=
  decode_encode src

/-- The test vectors of RFC 4648, section 10. -/
theorem EncodeToString_rfc4648 :
    EncodeToString [] = "" ∧
    EncodeToString [0x66] = "Zg==" ∧
    EncodeToString [0x66, 0x6f] = "Zm8=" ∧
    EncodeToString [0x66, 0x6f, 0x6f] = "Zm9v" ∧
    EncodeToString [0x66, 0x6f, 0x6f, 0x62] = "Zm9vYg==" ∧
    EncodeToString [0x66, 0x6f, 0x6f, 0x62, 0x61] = "Zm9vYmE=" ∧
    EncodeToString [0x66, 0x6f, 0x6f, 0x62, 0x61, 0x72] = "Zm9vYmFy" := by
  decide

/-! ## Unfolding lemmas -/

/-- Sequencing threads the trace. -/
theorem Eff.bind_apply {α β : Type} (m : Eff α) (f : α → Eff β) (tr : Trace) :
    (m >>= f) tr = f (m tr).1 (m tr).2 := rfl

/-- A pure value leaves the trace alone. -/
theorem Eff.pure_apply {α : Type} (a : α) (tr : Trace) : (pure a : Eff α) tr = (a, tr) := rfl

/-- The lookup from any trace. -/
theorem Getenv_apply (w : World) (name : String) (tr : Trace) :
    Getenv w name tr = ((w.environ name).getD "", tr ++ [.getenv name]) := rfl

/-- The file read from any trace. -/
theorem ReadFile_apply (w : World) (path : String) (tr : Trace) :
    ReadFile w path tr = (w.files path, tr ++ [.readFile path]) := rfl

/-- The remote call from any trace. -/
theorem AnnotateDo_apply (w : World) (srv : w.Service) (batch : BatchAnnotateImagesRequest)
    (tr : Trace) :
    AnnotateDo w srv batch tr = (w.annotateDo srv batch, tr ++ [.annotate batch]) := rfl

/-- The log call from any trace. -/
theorem logPrintf_apply (msg : String) (tr : Trace) :
    logPrintf msg tr = ((), tr ++ [.logPrintf msg]) := rfl

/-- The print call from any trace. -/
theorem Println_apply (s : String) (tr : Trace) :
    Println s tr = ((), tr ++ [.stdout (s ++ "\n")]) := rfl

/-! ## The request builder and the service factory, case by case -/

/-- The request builder on a readable file, from any trace. -/
theorem annotateImageRequest_apply_ok (w : World) (path t : String) (tr : Trace)
    (b : List Byte) (h : w.files path = .ok b) :
    annotateImageRequest w path t tr =
      (.ok { Image := { Content := EncodeToString b },
             Features := [{ MaxResults := 10, Type_ := t }] },
        tr ++ [.readFile path]) := by
  simp [annotateImageRequest, Eff.bind_apply, ReadFile_apply, h, Eff.pure_apply]

/-- The request builder on an unreadable file, from any trace. -/
theorem annotateImageRequest_apply_error (w : World) (path t : String) (tr : Trace)
    (err : String) (h : w.files path = .error err) :
    annotateImageRequest w path t tr =
      (.error ("Unable to read an image by file path: " ++ err), tr ++ [.readFile path]) := by
  simp [annotateImageRequest, Eff.bind_apply, ReadFile_apply, h, Eff.pure_apply]

/-- The request builder from any trace: its result does not depend on the
trace, and its one event is the read of `path`. -/
theorem annotateImageRequest_apply (w : World) (path t : String) (tr : Trace) :
    (annotateImageRequest w path t tr).1 = (annotateImageRequest w path t).run.1 ∧
    (annotateImageRequest w path t tr).2 = tr ++ [.readFile path] := by
  unfold Eff.run
  rcases hf : w.files path with err | b
  · simp [annotateImageRequest_apply_error w path t _ err hf]
  · simp [annotateImageRequest_apply_ok w path t _ b hf]

/-- The service factory when the looked-up value is empty. -/
theorem newVisionService_apply_empty (w : World) (tr : Trace)
    (h : ((w.environ credentialsVar).getD "").length = 0) :
    newVisionService w tr =
      (.error "Unable to get env variable: GOOGLE_APPLICATION_CREDENTIALS",
        tr ++ [.getenv credentialsVar]) := by
  simp [newVisionService, Eff.bind_apply, Getenv_apply, h, Eff.pure_apply]

/-- The service factory when the key file cannot be read. -/
theorem newVisionService_apply_readError (w : World) (tr : Trace) (err : String)
    (h : ((w.environ credentialsVar).getD "").length ≠ 0)
    (hf : w.files ((w.environ credentialsVar).getD "") = .error err) :
    newVisionService w tr =
      (.error ("Unable to read client secret file: " ++ err),
        tr ++ [.getenv credentialsVar, .readFile ((w.environ credentialsVar).getD "")]) := by
  simp [newVisionService, Eff.bind_apply, Getenv_apply, ReadFile_apply, h, hf, Eff.pure_apply]

/-- The service factory when the key file does not parse. -/
theorem newVisionService_apply_parseError (w : World) (tr : Trace) (b : List Byte)
    (err : String)
    (h : ((w.environ credentialsVar).getD "").length ≠ 0)
    (hf : w.files ((w.environ credentialsVar).getD "") = .ok b)
    (hp : w.JWTConfigFromJSON b CloudPlatformScope = .error err) :
    newVisionService w tr =
      (.error ("Unable to parse client secret file to config: " ++ err),
        tr ++ [.getenv credentialsVar, .readFile ((w.environ credentialsVar).getD "")]) := by
  simp [newVisionService, Eff.bind_apply, Getenv_apply, ReadFile_apply, h, hf, hp,
    Eff.pure_apply]

/-- The service factory when `vision.New` fails. -/
theorem newVisionService_apply_newError (w : World) (tr : Trace) (b : List Byte)
    (config : w.Config) (err : String)
    (h : ((w.environ credentialsVar).getD "").length ≠ 0)
    (hf : w.files ((w.environ credentialsVar).getD "") = .ok b)
    (hp : w.JWTConfigFromJSON b CloudPlatformScope = .ok config)
    (hn : w.visionNew (w.configClient config) = .error err) :
    newVisionService w tr =
      (.error ("Unable to retrieve vision Client " ++ err),
        tr ++ [.getenv credentialsVar, .readFile ((w.environ credentialsVar).getD "")]) := by
  simp [newVisionService, Eff.bind_apply, Getenv_apply, ReadFile_apply, h, hf, hp, hn,
    Eff.pure_apply]

/-- The service factory when every one of its calls succeeds. -/
theorem newVisionService_apply_ok (w : World) (tr : Trace) (b : List Byte)
    (config : w.Config) (srv : w.Service)
    (h : ((w.environ credentialsVar).getD "").length ≠ 0)
    (hf : w.files ((w.environ credentialsVar).getD "") = .ok b)
    (hp : w.JWTConfigFromJSON b CloudPlatformScope = .ok config)
    (hn : w.visionNew (w.configClient config) = .ok srv) :
    newVisionService w tr =
      (.ok srv,
        tr ++ [.getenv credentialsVar, .readFile ((w.environ credentialsVar).getD "")]) := by
  simp [newVisionService, Eff.bind_apply, Getenv_apply, ReadFile_apply, h, hf, hp, hn,
    Eff.pure_apply]

/-- The service factory from any trace: its result does not depend on the
trace, and its events are either the lookup alone or the lookup followed by
one read of the file the variable names. -/
theorem newVisionService_apply (w : World) (tr : Trace) :
    (newVisionService w tr).1 = (newVisionService w).run.1 ∧
    (newVisionService w tr).2 = tr ++ (newVisionService w).run.2 ∧
    ((newVisionService w).run.2 = [.getenv credentialsVar] ∨
      (newVisionService w).run.2 =
        [.getenv credentialsVar, .readFile ((w.environ credentialsVar).getD "")]) := by
  unfold Eff.run
  by_cases h : ((w.environ credentialsVar).getD "").length = 0
  · simp [newVisionService_apply_empty w _ h]
  · rcases hf : w.files ((w.environ credentialsVar).getD "") with err | b
    · simp [newVisionService_apply_readError w _ err h hf]
    · rcases hp : w.JWTConfigFromJSON b CloudPlatformScope with err | config
      · simp [newVisionService_apply_parseError w _ b err h hf hp]
      · rcases hn : w.visionNew (w.configClient config) with err | srv
        · simp [newVisionService_apply_newError w _ b config err h hf hp hn]
        · simp [newVisionService_apply_ok w _ b config srv h hf hp hn]

/-- The service factory succeeds exactly on a non-empty looked-up value that
names a readable, parseable key file from which a handle can be built. -/
theorem newVisionService_ok_iff (w : World) (srv : w.Service) :
    (newVisionService w).run.1 = .ok srv ↔
      ((w.environ credentialsVar).getD "").length ≠ 0 ∧
      ∃ (b : List Byte) (config : w.Config),
        w.files ((w.environ credentialsVar).getD "") = .ok b ∧
        w.JWTConfigFromJSON b CloudPlatformScope = .ok config ∧
        w.visionNew (w.configClient config) = .ok srv := by
  unfold Eff.run
  by_cases h : ((w.environ credentialsVar).getD "").length = 0
  · simp [newVisionService_apply_empty w _ h, h]
  · rcases hf : w.files ((w.environ credentialsVar).getD "") with err | b
    · simp [newVisionService_apply_readError w _ err h hf, h]
    · rcases hp : w.JWTConfigFromJSON b CloudPlatformScope with err | config
      · simp [newVisionService_apply_parseError w _ b err h hf hp, h, hp]
      · rcases hn : w.visionNew (w.configClient config) with err | srv2
        · simp [newVisionService_apply_newError w _ b config err h hf hp hn, h, hp, hn]
        · simp [newVisionService_apply_ok w _ b config srv2 h hf hp hn, h, hp, hn]

/-- The service factory never calls the remote service, logs or prints. -/
theorem newVisionService_quiet (w : World) :
    annotateCalls (newVisionService w).run.2 = [] ∧
    logged (newVisionService w).run.2 = [] ∧
    stdoutWrites (newVisionService w).run.2 = [] ∧
    envLookups (newVisionService w).run.2 = [credentialsVar] ∧
    (fileReads (newVisionService w).run.2).length ≤ 1 := by
  rcases (newVisionService_apply w []).2.2 with h | h <;>
    simp [h, annotateCalls, logged, stdoutWrites, envLookups, fileReads]

/-- The other error texts of `newVisionService` differ from the
missing-variable text. -/
theorem error_text_ne (err : String) :
    "Unable to read client secret file: " ++ err ≠
      "Unable to get env variable: GOOGLE_APPLICATION_CREDENTIALS" ∧
    "Unable to parse client secret file to config: " ++ err ≠
      "Unable to get env variable: GOOGLE_APPLICATION_CREDENTIALS" ∧
    "Unable to retrieve vision Client " ++ err ≠
      "Unable to get env variable: GOOGLE_APPLICATION_CREDENTIALS" := by
  refine ⟨?_, ?_, ?_⟩ <;>
  · intro h
    have h2 := congrArg (fun s => s.data.get? 10) h
    simp [String.data_append] at h2

/-! ## `Run`, case by case -/

/-- The index `len(args) - 1` selects the last positional argument. -/
theorem get_last_arg (args : List String) (path : String) (h : args.getLast? = some path)
    (hlt : args.length - 1 < args.length) : args[args.length - 1] = path := by
  have h1 := List.getLast?_eq_getElem? args
  rw [h, List.getElem?_eq_getElem hlt] at h1
  simpa using h1.symm

/-- A list with a last element is not empty. -/
theorem length_ne_zero_of_getLast? (args : List String) (path : String)
    (h : args.getLast? = some path) : args.length ≠ 0 := by
  cases args with
  | nil => simp at h
  | cons a as => simp

/-- A non-empty list has a last element. -/
theorem exists_getLast?_of_length_ne_zero (args : List String) (h : args.length ≠ 0) :
    ∃ path, args.getLast? = some path := by
  cases args with
  | nil => simp at h
  | cons a as => exact ⟨_, List.getLast?_eq_getLast _ (by simp)⟩

/-- `Run` without a positional argument. -/
theorem Run_apply_noArgs (w : World) (t : String) (tr : Trace) :
    Run w t [] tr = (FAILURE, tr ++ [.logPrintf "Argument is required."]) := by
  simp [Run, Eff.bind_apply, logPrintf_apply, Eff.pure_apply]

/-- `Run` when the service factory fails. -/
theorem Run_apply_serviceError (w : World) (t : String) (args : List String) (tr : Trace)
    (err : String) (ha : args.length ≠ 0)
    (hs : (newVisionService w tr).1 = .error err) :
    Run w t args tr =
      (FAILURE, (newVisionService w tr).2 ++
        [.logPrintf ("Unable to retrieve vision service: " ++ err ++ "\n")]) := by
  simp [Run, ha, Eff.bind_apply, hs, logPrintf_apply, Eff.pure_apply]

/-- `Run` when the request builder fails. -/
theorem Run_apply_requestError (w : World) (t : String) (args : List String) (tr : Trace)
    (path : String) (srv : w.Service) (err : String)
    (ha : args.getLast? = some path)
    (hs : (newVisionService w tr).1 = .ok srv)
    (hr : (annotateImageRequest w path t (newVisionService w tr).2).1 = .error err) :
    Run w t args tr =
      (FAILURE, (annotateImageRequest w path t (newVisionService w tr).2).2 ++
        [.logPrintf ("Unable to retrieve image request: " ++ err ++ "\n")]) := by
  have hl := length_ne_zero_of_getLast? args path ha
  simp [Run, hl, Eff.bind_apply, hs, get_last_arg args path ha (by omega), hr, logPrintf_apply,
    Eff.pure_apply]

/-- `Run` when the remote call fails. -/
theorem Run_apply_remoteError (w : World) (t : String) (args : List String) (tr : Trace)
    (path : String) (srv : w.Service) (req : AnnotateImageRequest) (err : String)
    (ha : args.getLast? = some path)
    (hs : (newVisionService w tr).1 = .ok srv)
    (hr : (annotateImageRequest w path t (newVisionService w tr).2).1 = .ok req)
    (hd : w.annotateDo srv { Requests := [req] } = .error err) :
    Run w t args tr =
      (FAILURE, (annotateImageRequest w path t (newVisionService w tr).2).2 ++
        [.annotate { Requests := [req] },
         .logPrintf ("Unable to execute images annotate requests: " ++ err ++ "\n")]) := by
  have hl := length_ne_zero_of_getLast? args path ha
  simp [Run, hl, Eff.bind_apply, hs, get_last_arg args path ha (by omega), hr, AnnotateDo_apply, hd,
    logPrintf_apply, Eff.pure_apply]

/-- `Run` when the serializer fails. -/
theorem Run_apply_marshalError (w : World) (t : String) (args : List String) (tr : Trace)
    (path : String) (srv : w.Service) (req : AnnotateImageRequest)
    (res : BatchAnnotateImagesResponse w.Response) (err : String)
    (ha : args.getLast? = some path)
    (hs : (newVisionService w tr).1 = .ok srv)
    (hr : (annotateImageRequest w path t (newVisionService w tr).2).1 = .ok req)
    (hd : w.annotateDo srv { Requests := [req] } = .ok res)
    (hm : w.MarshalIndent res.Responses "" " " = .error err) :
    Run w t args tr =
      (FAILURE, (annotateImageRequest w path t (newVisionService w tr).2).2 ++
        [.annotate { Requests := [req] },
         .logPrintf ("Unable to marshal the response: " ++ err ++ "\n")]) := by
  have hl := length_ne_zero_of_getLast? args path ha
  simp [Run, hl, Eff.bind_apply, hs, get_last_arg args path ha (by omega), hr, AnnotateDo_apply, hd, hm,
    logPrintf_apply, Eff.pure_apply]

/-- `Run` when every step succeeds. -/
theorem Run_apply_ok (w : World) (t : String) (args : List String) (tr : Trace)
    (path : String) (srv : w.Service) (req : AnnotateImageRequest)
    (res : BatchAnnotateImagesResponse w.Response) (body : String)
    (ha : args.getLast? = some path)
    (hs : (newVisionService w tr).1 = .ok srv)
    (hr : (annotateImageRequest w path t (newVisionService w tr).2).1 = .ok req)
    (hd : w.annotateDo srv { Requests := [req] } = .ok res)
    (hm : w.MarshalIndent res.Responses "" " " = .ok body) :
    Run w t args tr =
      (SUCCESS, (annotateImageRequest w path t (newVisionService w tr).2).2 ++
        [.annotate { Requests := [req] }, .stdout (body ++ "\n")]) := by
  have hl := length_ne_zero_of_getLast? args path ha
  simp [Run, hl, Eff.bind_apply, hs, get_last_arg args path ha (by omega), hr, AnnotateDo_apply, hd, hm,
    Println_apply, Eff.pure_apply]

/-- A run without a positional argument. -/
theorem Run_run_noArgs (w : World) (t : String) :
    (Run w t []).run = (1, [.logPrintf "Argument is required."]) := by
  unfold Eff.run
  rw [Run_apply_noArgs]
  rfl

/-- A run in which the service factory fails. -/
theorem Run_run_serviceError (w : World) (t : String) (args : List String) (err : String)
    (ha : args.length ≠ 0) (hs : (newVisionService w).run.1 = .error err) :
    (Run w t args).run =
      (1, (newVisionService w).run.2 ++
        [.logPrintf ("Unable to retrieve vision service: " ++ err ++ "\n")]) := by
  unfold Eff.run at *
  rw [Run_apply_serviceError w t args [] err ha hs]
  rfl

/-- A run in which the request builder fails. -/
theorem Run_run_requestError (w : World) (t : String) (args : List String)
    (path : String) (srv : w.Service) (err : String)
    (ha : args.getLast? = some path)
    (hs : (newVisionService w).run.1 = .ok srv)
    (hr : (annotateImageRequest w path t).run.1 = .error err) :
    (Run w t args).run =
      (1, (newVisionService w).run.2 ++
        [.readFile path,
         .logPrintf ("Unable to retrieve image request: " ++ err ++ "\n")]) := by
  obtain ⟨hr1, hr2⟩ := annotateImageRequest_apply w path t (newVisionService w []).2
  unfold Eff.run at *
  rw [Run_apply_requestError w t args [] path srv err ha hs (by rw [hr1, hr]), hr2]
  simp [FAILURE]

/-- A run in which the remote call fails. -/
theorem Run_run_remoteError (w : World) (t : String) (args : List String)
    (path : String) (srv : w.Service) (req : AnnotateImageRequest) (err : String)
    (ha : args.getLast? = some path)
    (hs : (newVisionService w).run.1 = .ok srv)
    (hr : (annotateImageRequest w path t).run.1 = .ok req)
    (hd : w.annotateDo srv { Requests := [req] } = .error err) :
    (Run w t args).run =
      (1, (newVisionService w).run.2 ++
        [.readFile path, .annotate { Requests := [req] },
         .logPrintf ("Unable to execute images annotate requests: " ++ err ++ "\n")]) := by
  obtain ⟨hr1, hr2⟩ := annotateImageRequest_apply w path t (newVisionService w []).2
  unfold Eff.run at *
  rw [Run_apply_remoteError w t args [] path srv req err ha hs (by rw [hr1, hr]) hd, hr2]
  simp [FAILURE]

/-- A run in which the serializer fails. -/
theorem Run_run_marshalError (w : World) (t : String) (args : List String)
    (path : String) (srv : w.Service) (req : AnnotateImageRequest)
    (res : BatchAnnotateImagesResponse w.Response) (err : String)
    (ha : args.getLast? = some path)
    (hs : (newVisionService w).run.1 = .ok srv)
    (hr : (annotateImageRequest w path t).run.1 = .ok req)
    (hd : w.annotateDo srv { Requests := [req] } = .ok res)
    (hm : w.MarshalIndent res.Responses "" " " = .error err) :
    (Run w t args).run =
      (1, (newVisionService w).run.2 ++
        [.readFile path, .annotate { Requests := [req] },
         .logPrintf ("Unable to marshal the response: " ++ err ++ "\n")]) := by
  obtain ⟨hr1, hr2⟩ := annotateImageRequest_apply w path t (newVisionService w []).2
  unfold Eff.run at *
  rw [Run_apply_marshalError w t args [] path srv req res err ha hs (by rw [hr1, hr]) hd hm,
    hr2]
  simp [FAILURE]

/-- A run in which every step succeeds. -/
theorem Run_run_success (w : World) (t : String) (args : List String)
    (path : String) (srv : w.Service) (req : AnnotateImageRequest)
    (res : BatchAnnotateImagesResponse w.Response) (body : String)
    (ha : args.getLast? = some path)
    (hs : (newVisionService w).run.1 = .ok srv)
    (hr : (annotateImageRequest w path t).run.1 = .ok req)
    (hd : w.annotateDo srv { Requests := [req] } = .ok res)
    (hm : w.MarshalIndent res.Responses "" " " = .ok body) :
    (Run w t args).run =
      (0, (newVisionService w).run.2 ++
        [.readFile path, .annotate { Requests := [req] }, .stdout (body ++ "\n")]) := by
  obtain ⟨hr1, hr2⟩ := annotateImageRequest_apply w path t (newVisionService w []).2
  unfold Eff.run at *
  rw [Run_apply_ok w t args [] path srv req res body ha hs (by rw [hr1, hr]) hd hm, hr2]
  simp [SUCCESS]

/-- Every run of `Run` is one of the six outcomes. -/
theorem Run_outcome (w : World) (t : String) (args : List String) :
    RunOutcome w t args (Run w t args).run := by
  by_cases hl : args.length = 0
  · have ha : args = [] := List.length_eq_zero.mp hl
    subst ha
    rw [Run_run_noArgs]
    exact .noArgs rfl
  · obtain ⟨path, ha⟩ := exists_getLast?_of_length_ne_zero args hl
    rcases hs : (newVisionService w).run.1 with e | srv
    · rw [Run_run_serviceError w t args e hl hs]
      exact .serviceError path e ha hs
    · rcases hr : (annotateImageRequest w path t).run.1 with e | req
      · rw [Run_run_requestError w t args path srv e ha hs hr]
        exact .requestError path srv e ha hs hr
      · rcases hd : w.annotateDo srv { Requests := [req] } with e | res
        · rw [Run_run_remoteError w t args path srv req e ha hs hr hd]
          exact .remoteError path srv req e ha hs hr hd
        · rcases hm : w.MarshalIndent res.Responses "" " " with e | body
          · rw [Run_run_marshalError w t args path srv req res e ha hs hr hd hm]
            exact .marshalError path srv req res e ha hs hr hd hm
          · rw [Run_run_success w t args path srv req res body ha hs hr hd hm]
            exact .success path srv req res body ha hs hr hd hm

/-- Only the last positional argument matters. -/
theorem Run_last_arg (w : World) (t : String) (args : List String) (path : String)
    (ha : args.getLast? = some path) : Run w t args = Run w t [path] := by
  have hl := length_ne_zero_of_getLast? args path ha
  funext tr
  simp [Run, hl, get_last_arg args path ha (by omega)]

/-! ## The claims -/

/-- C1: for every path whose file read succeeds with bytes `b` and every
feature-kind string `t`, `annotateImageRequest path t` returns without error a
request whose image content is the padded standard base64 text of `b` (the
output of the encoder, which decodes back to `b`) and whose feature list is
the single feature of type `t` with `MaxResults` 10; its only action is the
read of `path`. -/
theorem annotateImageRequest_builds_request (w : World) (path t : String) (b : List Byte)
    (tr : Trace) (h : w.files path = .ok b) :
    ∃ req : AnnotateImageRequest,
      annotateImageRequest w path t tr = (.ok req, tr ++ [.readFile path]) ∧
      req.Image.Content = EncodeToString b ∧
      DecodeString req.Image.Content = some b ∧
      req.Features.length = 1 ∧
      req.Features = [{ MaxResults := 10, Type_ := t }] ∧
      (∀ f ∈ req.Features, f.Type_ = t ∧ f.MaxResults = 10) := by
  refine ⟨_, annotateImageRequest_apply_ok w path t tr b h, rfl,
    DecodeString_EncodeToString b, rfl, rfl, ?_⟩
  intro f hf
  simp only [List.mem_singleton] at hf
  subst hf
  exact ⟨rfl, rfl⟩

/-- Witness of C1: the file `img.png` of `okWorld` holds the bytes `fo`, and the
request built for it carries `Zm8=` and the one feature `LABEL_DETECTION`
capped at 10. -/
theorem annotateImageRequest_builds_request_witness :
    okWorld.files "img.png" = .ok [0x66, 0x6f] ∧
    annotateImageRequest okWorld "img.png" "LABEL_DETECTION" [] =
      (.ok { Image := { Content := "Zm8=" },
             Features := [{ MaxResults := 10, Type_ := "LABEL_DETECTION" }] },
        [.readFile "img.png"]) := by
  refine ⟨by rfl, ?_⟩
  obtain ⟨req, hrun, hc, -, -, hfeat, -⟩ :=
    annotateImageRequest_builds_request okWorld "img.png" "LABEL_DETECTION" [0x66, 0x6f] []
      (by rfl)
  have hreq : req = ⟨⟨"Zm8="⟩, [⟨10, "LABEL_DETECTION"⟩]⟩ := by
    cases req with
    | mk image features =>
      cases image with
      | mk content =>
        simp only at hc hfeat
        subst hc hfeat
        rfl
  rw [hrun, hreq]
  rfl

/-- C2: `annotateImageRequest path t` returns an error if and only if reading
the file at `path` fails, and whether it fails is the same for any two
feature-kind strings, the empty string included: the feature kind is not
validated. -/
theorem annotateImageRequest_error_iff_read_fails (w : World) (path t : String) :
    ((∃ err, (annotateImageRequest w path t).run.1 = .error err) ↔
      ∃ err, w.files path = .error err) ∧
    ((∃ req, (annotateImageRequest w path t).run.1 = .ok req) ↔
      ∃ b, w.files path = .ok b) ∧
    (∀ t2 : String,
      (∃ err, (annotateImageRequest w path t).run.1 = .error err) ↔
        ∃ err, (annotateImageRequest w path t2).run.1 = .error err) ∧
    ((∃ err, (annotateImageRequest w path "").run.1 = .error err) ↔
      ∃ err, w.files path = .error err) := by
  unfold Eff.run
  rcases hf : w.files path with err | b
  · simp [annotateImageRequest_apply_error w path _ _ err hf]
  · simp [annotateImageRequest_apply_ok w path _ _ b hf]

/-- C3: when the positional-argument list is empty, `Run` returns 1 and its
only action is the log message: no lookup of the credential variable, no file
read, no remote call and no write to standard output. -/
theorem Run_no_positional_argument (w : World) (t : String) :
    (Run w t []).run.1 = 1 ∧
    envLookups (Run w t []).run.2 = [] ∧
    fileReads (Run w t []).run.2 = [] ∧
    annotateCalls (Run w t []).run.2 = [] ∧
    stdoutWrites (Run w t []).run.2 = [] ∧
    (Run w t []).run.2 = [.logPrintf "Argument is required."] := by
  unfold Eff.run
  rw [Run_apply_noArgs]
  simp [FAILURE, envLookups, fileReads, annotateCalls, stdoutWrites]

/-- C4: with at least one positional argument and the credential variable
unset, `Run` returns 1 and performs no file read, neither of the credential
file nor of the image file, and no remote call: the run is the lookup followed
by the log message. -/
theorem Run_credentials_unset (w : World) (t : String) (args : List String)
    (ha : args ≠ []) (he : w.environ credentialsVar = none) :
    (Run w t args).run.1 = 1 ∧
    fileReads (Run w t args).run.2 = [] ∧
    annotateCalls (Run w t args).run.2 = [] ∧
    (Run w t args).run.2 =
      [.getenv credentialsVar,
       .logPrintf ("Unable to retrieve vision service: " ++
         "Unable to get env variable: GOOGLE_APPLICATION_CREDENTIALS" ++ "\n")] := by
  have hl : args.length ≠ 0 := by simpa using ha
  have hs := newVisionService_apply_empty w [] (by simp [he])
  unfold Eff.run
  rw [Run_apply_serviceError w t args [] _ hl (by rw [hs]), hs]
  simp [FAILURE, fileReads, annotateCalls]

/-- Witness of C4: `noEnvWorld` has no credential variable, and `Run` on the
argument `img.png` returns 1 without a file read or a remote call. -/
theorem Run_credentials_unset_witness :
    ["img.png"] ≠ [] ∧ noEnvWorld.environ credentialsVar = none ∧
    (Run noEnvWorld "FACE_DETECTION" ["img.png"]).run.1 = 1 ∧
    fileReads (Run noEnvWorld "FACE_DETECTION" ["img.png"]).run.2 = [] ∧
    annotateCalls (Run noEnvWorld "FACE_DETECTION" ["img.png"]).run.2 = [] :=
  ⟨by decide, by rfl,
   (Run_credentials_unset noEnvWorld "FACE_DETECTION" ["img.png"] (by decide) (by rfl)).1,
   (Run_credentials_unset noEnvWorld "FACE_DETECTION" ["img.png"] (by decide) (by rfl)).2.1,
   (Run_credentials_unset noEnvWorld "FACE_DETECTION" ["img.png"] (by decide) (by rfl)).2.2.1⟩

/-- C5: when the last positional argument is a path whose read fails, `Run`
returns 1 and never invokes the remote annotate operation, whatever the
credential environment is. -/
theorem Run_image_unreadable (w : World) (t : String) (args : List String)
    (path err : String) (ha : args.getLast? = some path) (hf : w.files path = .error err) :
    (Run w t args).run.1 = 1 ∧ annotateCalls (Run w t args).run.2 = [] := by
  have hl := length_ne_zero_of_getLast? args path ha
  have hq := (newVisionService_quiet w).1
  unfold Eff.run at hq ⊢
  rcases hs : (newVisionService w []).1 with e | srv
  · rw [Run_apply_serviceError w t args [] e hl hs]
    simp only [annotateCalls, List.filterMap_append] at hq ⊢
    simp [FAILURE, hq]
  · have hr := annotateImageRequest_apply_error w path t (newVisionService w []).2 err hf
    rw [Run_apply_requestError w t args [] path srv _ ha hs (by rw [hr]), hr]
    simp only [annotateCalls, List.filterMap_append] at hq ⊢
    simp [FAILURE, hq]

/-- Witness of C5: `okWorld` has no file `missing.png`, and `Run` on it
returns 1 without a remote call. -/
theorem Run_image_unreadable_witness :
    ["img.png", "missing.png"].getLast? = some "missing.png" ∧
    okWorld.files "missing.png" = .error "open missing.png: no such file or directory" ∧
    (Run okWorld "FACE_DETECTION" ["img.png", "missing.png"]).run.1 = 1 ∧
    annotateCalls (Run okWorld "FACE_DETECTION" ["img.png", "missing.png"]).run.2 = [] :=
  ⟨by rfl, by rfl,
   Run_image_unreadable okWorld "FACE_DETECTION" ["img.png", "missing.png"] "missing.png"
     "open missing.png: no such file or directory" (by rfl) (by rfl)⟩

/-- C6, as stated, fails: in `remoteDownWorld` the credential variable is set,
the key file is readable and parses, the handle is built and the image
`img.png` is readable, yet the remote call is refused, so `Run` returns 1 and
writes nothing to standard output. -/
theorem Run_valid_inputs_remote_refuses :
    remoteDownWorld.environ credentialsVar = some "/key.json" ∧
    remoteDownWorld.files "/key.json" = .ok [0x7b, 0x7d] ∧
    remoteDownWorld.JWTConfigFromJSON [0x7b, 0x7d] CloudPlatformScope = .ok () ∧
    remoteDownWorld.visionNew (remoteDownWorld.configClient ()) = .ok () ∧
    remoteDownWorld.files "img.png" = .ok [0x66, 0x6f] ∧
    (Run remoteDownWorld "FACE_DETECTION" ["img.png"]).run.1 = 1 ∧
    stdoutWrites (Run remoteDownWorld "FACE_DETECTION" ["img.png"]).run.2 = [] := by
  refine ⟨by rfl, by rfl, by rfl, by rfl, by rfl, by rfl, by rfl⟩

/-- C6, amended: for a readable image file given as last positional argument
and a credential environment whose variable holds a non-empty path to a
readable, parseable key file from which the handle is built, if moreover the
remote call answers with exactly one result and that one-element list
serializes, then `Run` returns 0 and writes to standard output exactly one
text: the indented serialization of the one-element list, then a newline. -/
theorem Run_valid_inputs_one_result (w : World) (t : String) (args : List String)
    (path fn : String) (key img : List Byte) (config : w.Config) (srv : w.Service)
    (res : BatchAnnotateImagesResponse w.Response) (r : w.Response) (body : String)
    (ha : args.getLast? = some path)
    (he : w.environ credentialsVar = some fn) (hne : fn.length ≠ 0)
    (hk : w.files fn = .ok key)
    (hp : w.JWTConfigFromJSON key CloudPlatformScope = .ok config)
    (hn : w.visionNew (w.configClient config) = .ok srv)
    (hi : w.files path = .ok img)
    (hd : w.annotateDo srv
      { Requests := [{ Image := { Content := EncodeToString img },
                       Features := [{ MaxResults := 10, Type_ := t }] }] } = .ok res)
    (h1 : res.Responses = [r])
    (hm : w.MarshalIndent [r] "" " " = .ok body) :
    (Run w t args).run.1 = 0 ∧
    stdoutWrites (Run w t args).run.2 = [body ++ "\n"] := by
  have hv : (w.environ credentialsVar).getD "" = fn := by simp [he]
  have hs := newVisionService_apply_ok w [] key config srv (by rw [hv]; exact hne)
    (by rw [hv]; exact hk) hp hn
  have hr := annotateImageRequest_apply_ok w path t [] img hi
  rw [Run_run_success w t args path srv _ res body ha (by unfold Eff.run; rw [hs])
    (by unfold Eff.run; rw [hr]) hd (by rw [h1]; exact hm)]
  unfold Eff.run
  rw [hs]
  simp [stdoutWrites]

/-- Witness of C6, amended: in `okWorld`, `Run` on `img.png` returns 0 and
prints the serialization of the single result. -/
theorem Run_valid_inputs_one_result_witness :
    (Run okWorld "FACE_DETECTION" ["img.png"]).run.1 = 0 ∧
    stdoutWrites (Run okWorld "FACE_DETECTION" ["img.png"]).run.2 =
      ["[\n \x7b\x7d\n]" ++ "\n"] :=
  Run_valid_inputs_one_result okWorld "FACE_DETECTION" ["img.png"] "img.png" "/key.json"
    [0x7b, 0x7d] [0x66, 0x6f] () () { Responses := ["\x7b\x7d"] } "\x7b\x7d" "[\n \x7b\x7d\n]"
    (by rfl) (by rfl) (by decide) (by rfl) (by rfl) (by rfl) (by rfl) (by rfl) (by rfl)
    (by rfl)

/-- C7, as stated, fails: in `marshalFailWorld` the handle and the request are
built and the remote call returns a response without error, yet the
serializer rejects the result list, so `Run` returns 1 and writes nothing to
standard output. -/
theorem Run_remote_answers_marshal_fails :
    (newVisionService marshalFailWorld).run.1 = .ok () ∧
    (annotateImageRequest marshalFailWorld "img.png" "FACE_DETECTION").run.1 =
      .ok ⟨⟨"Zm8="⟩, [⟨10, "FACE_DETECTION"⟩]⟩ ∧
    marshalFailWorld.annotateDo () ⟨[⟨⟨"Zm8="⟩, [⟨10, "FACE_DETECTION"⟩]⟩]⟩ =
      .ok ⟨["\x7b\x7d"]⟩ ∧
    (Run marshalFailWorld "FACE_DETECTION" ["img.png"]).run.1 = 1 ∧
    stdoutWrites (Run marshalFailWorld "FACE_DETECTION" ["img.png"]).run.2 = [] := by
  refine ⟨by rfl, by rfl, by rfl, by rfl, by rfl⟩

/-- C7, amended: when the handle and the request are built, the remote call
returns a response `R` without error and the result list `R.Responses`
serializes (empty prefix, one space per level) to `body`, the text written to
standard output is exactly `body` followed by one newline, nothing else is
written, and `Run` returns 0. -/
theorem Run_prints_serialized_responses (w : World) (t : String) (args : List String)
    (path : String) (srv : w.Service) (req : AnnotateImageRequest)
    (R : BatchAnnotateImagesResponse w.Response) (body : String)
    (ha : args.getLast? = some path)
    (hs : (newVisionService w).run.1 = .ok srv)
    (hr : (annotateImageRequest w path t).run.1 = .ok req)
    (hd : w.annotateDo srv { Requests := [req] } = .ok R)
    (hm : w.MarshalIndent R.Responses "" " " = .ok body) :
    (Run w t args).run.1 = 0 ∧
    stdoutWrites (Run w t args).run.2 = [body ++ "\n"] := by
  have hq := (newVisionService_quiet w).2.2.1
  rw [Run_run_success w t args path srv req R body ha hs hr hd hm]
  simp only [stdoutWrites, List.filterMap_append] at hq ⊢
  simp [hq]

/-- Witness of C7, amended: in `okWorld` with two positional arguments the
result list of the remote answer serializes to a three-line text, and that
text and a newline are what `Run` prints. -/
theorem Run_prints_serialized_responses_witness :
    (Run okWorld "LABEL_DETECTION" ["other.png", "img.png"]).run.1 = 0 ∧
    stdoutWrites (Run okWorld "LABEL_DETECTION" ["other.png", "img.png"]).run.2 =
      ["[\n \x7b\x7d\n]" ++ "\n"] :=
  Run_prints_serialized_responses okWorld "LABEL_DETECTION" ["other.png", "img.png"] "img.png"
    () ⟨⟨"Zm8="⟩, [⟨10, "LABEL_DETECTION"⟩]⟩ { Responses := ["\x7b\x7d"] } "[\n \x7b\x7d\n]"
    (by rfl) (by rfl) (by rfl) (by rfl) (by rfl)

/-- C8: on every run of `Run` that reaches the remote call, the remote annotate
operation is invoked exactly once and its batch holds exactly one request: the
one `annotateImageRequest` builds from the last positional argument and the
value of `-t`; the earlier positional arguments play no part in the run. -/
theorem Run_single_request_batch (w : World) (t : String) (args : List String)
    (batch : BatchAnnotateImagesRequest)
    (h : Event.annotate batch ∈ (Run w t args).run.2) :
    annotateCalls (Run w t args).run.2 = [batch] ∧
    batch.Requests.length = 1 ∧
    ∃ (path : String) (req : AnnotateImageRequest),
      args.getLast? = some path ∧
      (annotateImageRequest w path t).run.1 = .ok req ∧
      batch.Requests = [req] ∧
      Run w t args = Run w t [path] := by
  have hq := (newVisionService_quiet w).1
  have hmem : ∀ b, Event.annotate b ∉ (newVisionService w).run.2 := by
    intro b hb
    rcases (newVisionService_apply w []).2.2 with h2 | h2 <;> simp [h2] at hb
  have ho := Run_outcome w t args
  generalize (Run w t args).run = out at h ho
  cases ho with
  | noArgs ha => simp at h
  | serviceError path err ha hs => simp [hmem] at h
  | requestError path srv err ha hs hr => simp [hmem] at h
  | remoteError path srv req err ha hs hr hd =>
    simp [hmem] at h
    subst h
    refine ⟨?_, rfl, path, req, ha, hr, rfl, Run_last_arg w t args path ha⟩
    simp only [annotateCalls, List.filterMap_append] at hq ⊢
    simp [hq]
  | marshalError path srv req res err ha hs hr hd hm =>
    simp [hmem] at h
    subst h
    refine ⟨?_, rfl, path, req, ha, hr, rfl, Run_last_arg w t args path ha⟩
    simp only [annotateCalls, List.filterMap_append] at hq ⊢
    simp [hq]
  | success path srv req res body ha hs hr hd hm =>
    simp [hmem] at h
    subst h
    refine ⟨?_, rfl, path, req, ha, hr, rfl, Run_last_arg w t args path ha⟩
    simp only [annotateCalls, List.filterMap_append] at hq ⊢
    simp [hq]

/-- Witness of C8: in `remoteDownWorld` the run on `a.png`, `img.png` reaches
the remote call, and its one batch holds the one request built from `img.png`
and the feature kind `TEXT_DETECTION`. -/
theorem Run_single_request_batch_witness :
    Event.annotate ⟨[⟨⟨"Zm8="⟩, [⟨10, "TEXT_DETECTION"⟩]⟩]⟩ ∈
      (Run remoteDownWorld "TEXT_DETECTION" ["a.png", "img.png"]).run.2 ∧
    annotateCalls (Run remoteDownWorld "TEXT_DETECTION" ["a.png", "img.png"]).run.2 =
      [⟨[⟨⟨"Zm8="⟩, [⟨10, "TEXT_DETECTION"⟩]⟩]⟩] :=
  ⟨by decide,
   (Run_single_request_batch remoteDownWorld "TEXT_DETECTION" ["a.png", "img.png"]
     ⟨[⟨⟨"Zm8="⟩, [⟨10, "TEXT_DETECTION"⟩]⟩]⟩ (by decide)).1⟩

/-- C9: the return value of `Run` is always 0 or 1, and it is 0 exactly when
every step succeeded.  When some step fails, `Run` returns 1, exactly one
message is logged, it is the last event of the run, and nothing is written to
standard output.  The steps after the failing one are not executed: the run
is the events of the steps before it followed by the one log message. -/
theorem Run_failure_uniform (w : World) (t : String) (args : List String) :
    ((Run w t args).run.1 = 0 ∨ (Run w t args).run.1 = 1) ∧
    ((Run w t args).run.1 = 0 ↔ AllStepsSucceed w t args) ∧
    (¬ AllStepsSucceed w t args →
      (Run w t args).run.1 = 1 ∧
      (logged (Run w t args).run.2).length = 1 ∧
      stdoutWrites (Run w t args).run.2 = [] ∧
      ∃ msg, (Run w t args).run.2.getLast? = some (.logPrintf msg)) ∧
    (args = [] →
      (Run w t args).run.2 = [.logPrintf "Argument is required."]) ∧
    (∀ err, args ≠ [] → (newVisionService w).run.1 = .error err →
      (Run w t args).run.2 = (newVisionService w).run.2 ++
        [.logPrintf ("Unable to retrieve vision service: " ++ err ++ "\n")]) ∧
    (∀ path srv err, args.getLast? = some path →
      (newVisionService w).run.1 = .ok srv →
      (annotateImageRequest w path t).run.1 = .error err →
      (Run w t args).run.2 = (newVisionService w).run.2 ++
        [.readFile path,
         .logPrintf ("Unable to retrieve image request: " ++ err ++ "\n")]) ∧
    (∀ path srv req err, args.getLast? = some path →
      (newVisionService w).run.1 = .ok srv →
      (annotateImageRequest w path t).run.1 = .ok req →
      w.annotateDo srv { Requests := [req] } = .error err →
      (Run w t args).run.2 = (newVisionService w).run.2 ++
        [.readFile path, .annotate { Requests := [req] },
         .logPrintf ("Unable to execute images annotate requests: " ++ err ++ "\n")]) ∧
    (∀ path srv req res err, args.getLast? = some path →
      (newVisionService w).run.1 = .ok srv →
      (annotateImageRequest w path t).run.1 = .ok req →
      w.annotateDo srv { Requests := [req] } = .ok res →
      w.MarshalIndent res.Responses "" " " = .error err →
      (Run w t args).run.2 = (newVisionService w).run.2 ++
        [.readFile path, .annotate { Requests := [req] },
         .logPrintf ("Unable to marshal the response: " ++ err ++ "\n")]) := by
  obtain ⟨-, hlog, hout, -, -⟩ := newVisionService_quiet w
  have hshape : ((Run w t args).run.1 = 0 ∧ AllStepsSucceed w t args) ∨
      (¬ AllStepsSucceed w t args ∧ (Run w t args).run.1 = 1 ∧
        (logged (Run w t args).run.2).length = 1 ∧
        stdoutWrites (Run w t args).run.2 = [] ∧
        ∃ msg, (Run w t args).run.2.getLast? = some (.logPrintf msg)) := by
    have ho := Run_outcome w t args
    generalize (Run w t args).run = out at ho
    cases ho with
    | noArgs ha =>
      refine Or.inr ⟨?_, rfl, ?_, ?_, _, rfl⟩
      · rintro ⟨path, _, _, _, _, hp, _⟩
        simp [ha] at hp
      · simp [logged]
      · simp [stdoutWrites]
    | serviceError path err ha hs =>
      refine Or.inr ⟨?_, rfl, ?_, ?_, _, List.getLast?_concat _⟩
      · rintro ⟨_, srv, _, _, _, _, hs2, _⟩
        rw [hs] at hs2
        cases hs2
      · simp only [logged, List.filterMap_append] at hlog ⊢
        simp [hlog]
      · simp only [stdoutWrites, List.filterMap_append] at hout ⊢
        simp [hout]
    | requestError path srv err ha hs hr =>
      refine Or.inr ⟨?_, rfl, ?_, ?_, ?_⟩
      · rintro ⟨path2, _, _, _, _, hp, _, hr2, _⟩
        rw [ha] at hp
        cases hp
        rw [hr] at hr2
        cases hr2
      · simp only [logged, List.filterMap_append] at hlog ⊢
        simp [hlog]
      · simp only [stdoutWrites, List.filterMap_append] at hout ⊢
        simp [hout]
      · exact ⟨"Unable to retrieve image request: " ++ err ++ "\n", by simp⟩
    | remoteError path srv req err ha hs hr hd =>
      refine Or.inr ⟨?_, rfl, ?_, ?_, ?_⟩
      · rintro ⟨path2, srv2, req2, _, _, hp, hs2, hr2, hd2, _⟩
        rw [ha] at hp
        cases hp
        rw [hs] at hs2
        cases hs2
        rw [hr] at hr2
        cases hr2
        rw [hd] at hd2
        cases hd2
      · simp only [logged, List.filterMap_append] at hlog ⊢
        simp [hlog]
      · simp only [stdoutWrites, List.filterMap_append] at hout ⊢
        simp [hout]
      · exact ⟨"Unable to execute images annotate requests: " ++ err ++ "\n", by simp⟩
    | marshalError path srv req res err ha hs hr hd hm =>
      refine Or.inr ⟨?_, rfl, ?_, ?_, ?_⟩
      · rintro ⟨path2, srv2, req2, res2, _, hp, hs2, hr2, hd2, hm2⟩
        rw [ha] at hp
        cases hp
        rw [hs] at hs2
        cases hs2
        rw [hr] at hr2
        cases hr2
        rw [hd] at hd2
        cases hd2
        rw [hm] at hm2
        cases hm2
      · simp only [logged, List.filterMap_append] at hlog ⊢
        simp [hlog]
      · simp only [stdoutWrites, List.filterMap_append] at hout ⊢
        simp [hout]
      · exact ⟨"Unable to marshal the response: " ++ err ++ "\n", by simp⟩
    | success path srv req res body ha hs hr hd hm =>
      exact Or.inl ⟨rfl, path, srv, req, res, body, ha, hs, hr, hd, hm⟩
  refine ⟨?_, ?_, ?_, ?_, ?_, ?_, ?_, ?_⟩
  · rcases hshape with h | h
    · exact Or.inl h.1
    · exact Or.inr h.2.1
  · constructor
    · intro h0
      rcases hshape with h | h
      · exact h.2
      · rw [h.2.1] at h0
        cases h0
    · intro hall
      rcases hshape with h | h
      · exact h.1
      · exact absurd hall h.1
  · intro hnot
    rcases hshape with h | h
    · exact absurd h.2 hnot
    · exact h.2
  · intro ha
    subst ha
    rw [Run_run_noArgs]
  · intro err ha hs
    rw [Run_run_serviceError w t args err (by simpa using ha) hs]
  · intro path srv err ha hs hr
    rw [Run_run_requestError w t args path srv err ha hs hr]
  · intro path srv req err ha hs hr hd
    rw [Run_run_remoteError w t args path srv req err ha hs hr hd]
  · intro path srv req res err ha hs hr hd hm
    rw [Run_run_marshalError w t args path srv req res err ha hs hr hd hm]

/-- Witness of C9: in `remoteDownWorld` the remote call fails, so not every
step succeeds; the run on `img.png` returns 1 with one logged message and
nothing on standard output. -/
theorem Run_failure_uniform_witness :
    ¬ AllStepsSucceed remoteDownWorld "FACE_DETECTION" ["img.png"] ∧
    (Run remoteDownWorld "FACE_DETECTION" ["img.png"]).run.1 = 1 ∧
    (logged (Run remoteDownWorld "FACE_DETECTION" ["img.png"]).run.2).length = 1 ∧
    stdoutWrites (Run remoteDownWorld "FACE_DETECTION" ["img.png"]).run.2 = [] := by
  have hnot : ¬ AllStepsSucceed remoteDownWorld "FACE_DETECTION" ["img.png"] := by
    intro hall
    have h0 := (Run_failure_uniform remoteDownWorld "FACE_DETECTION" ["img.png"]).2.1.mpr hall
    revert h0
    decide
  have h := (Run_failure_uniform remoteDownWorld "FACE_DETECTION" ["img.png"]).2.2.1 hnot
  exact ⟨hnot, h.1, h.2.1, h.2.2.1⟩

/-- C10: `newVisionService` treats the credential variable set to the empty
string exactly like the variable being unset: whenever the looked-up value has
length 0 it returns the missing-variable error after the lookup alone, without
reading any file; for every non-empty value it reads the file at that path;
and the missing-variable error is returned if and only if the looked-up value
is empty. -/
theorem newVisionService_empty_value_like_unset (w : World) :
    ((w.environ credentialsVar = none ∨ w.environ credentialsVar = some "") →
      (newVisionService w).run =
        (.error "Unable to get env variable: GOOGLE_APPLICATION_CREDENTIALS",
          [.getenv credentialsVar])) ∧
    (((w.environ credentialsVar).getD "").length = 0 →
      (newVisionService w).run.1 =
          .error "Unable to get env variable: GOOGLE_APPLICATION_CREDENTIALS" ∧
        fileReads (newVisionService w).run.2 = []) ∧
    (((w.environ credentialsVar).getD "").length ≠ 0 →
      fileReads (newVisionService w).run.2 = [(w.environ credentialsVar).getD ""]) ∧
    ((newVisionService w).run.1 =
        .error "Unable to get env variable: GOOGLE_APPLICATION_CREDENTIALS" ↔
      ((w.environ credentialsVar).getD "").length = 0) := by
  unfold Eff.run
  by_cases h : ((w.environ credentialsVar).getD "").length = 0
  · have hrun := newVisionService_apply_empty w [] h
    refine ⟨fun _ => by simpa using hrun, fun _ => ?_, fun h2 => absurd h h2, ?_⟩
    · simp [hrun, fileReads]
    · simp [hrun, h]
  · have hne : ¬ (w.environ credentialsVar = none ∨ w.environ credentialsVar = some "") := by
      rintro (h2 | h2) <;> simp [h2] at h
    refine ⟨fun h2 => absurd h2 hne, fun h2 => absurd h2 h, fun _ => ?_, ?_⟩
    · rcases hf : w.files ((w.environ credentialsVar).getD "") with err | b
      · simp [newVisionService_apply_readError w _ err h hf, fileReads]
      · rcases hp : w.JWTConfigFromJSON b CloudPlatformScope with err | config
        · simp [newVisionService_apply_parseError w _ b err h hf hp, fileReads]
        · rcases hn : w.visionNew (w.configClient config) with err | srv
          · simp [newVisionService_apply_newError w _ b config err h hf hp hn, fileReads]
          · simp [newVisionService_apply_ok w _ b config srv h hf hp hn, fileReads]
    · rcases hf : w.files ((w.environ credentialsVar).getD "") with err | b
      · simp [newVisionService_apply_readError w _ err h hf, h, (error_text_ne err).1]
      · rcases hp : w.JWTConfigFromJSON b CloudPlatformScope with err | config
        · simp [newVisionService_apply_parseError w _ b err h hf hp, h, (error_text_ne err).2.1]
        · rcases hn : w.visionNew (w.configClient config) with err | srv
          · simp [newVisionService_apply_newError w _ b config err h hf hp hn, h,
              (error_text_ne err).2.2]
          · simp [newVisionService_apply_ok w _ b config srv h hf hp hn, h]

/-- Witness of C10: in `emptyEnvWorld` the variable is set to the empty string
and the factory returns the missing-variable error after the lookup alone; in
`okWorld` the value is `/key.json` and that file is read. -/
theorem newVisionService_empty_value_like_unset_witness :
    emptyEnvWorld.environ credentialsVar = some "" ∧
    (newVisionService emptyEnvWorld).run =
      (.error "Unable to get env variable: GOOGLE_APPLICATION_CREDENTIALS",
        [.getenv credentialsVar]) ∧
    ((okWorld.environ credentialsVar).getD "").length ≠ 0 ∧
    fileReads (newVisionService okWorld).run.2 = ["/key.json"] :=
  ⟨by rfl,
   (newVisionService_empty_value_like_unset emptyEnvWorld).1 (Or.inr (by rfl)),
   by decide,
   (newVisionService_empty_value_like_unset okWorld).2.2.1 (by decide)⟩

end Vision
